import Mathlib

/-!
Verification development for the layer install/uninstall decision logic of
`newrelic_lambda_layers/awslambda.py` (`_add_new_relic`, `_remove_new_relic`).

Modelling conventions (shallow embedding):
* Python dicts of environment variables are insertion-ordered association lists
  (`VarsT`); `dict.get`, assignment and `del` are `dictGet`, `dictSet`, `dictDel`.
* Python truthiness of a possibly-missing string (`None`/`""` falsy) is `pyTruthy`;
  Python `a or b` on such values is `pyOr`.
* `utils.get_arn_prefix region` (the vendor's region-specific layer-ARN
  prefix) is passed in as the string argument `pfx`.
* `utils.get_layers region runtime` is an external collaborator (the layer
  registry); its result is passed in as the argument `disco_layers`.
* `utils.RUNTIME_CONFIG` is a map from runtime name to the `"Handler"` value of
  its entry: either a single handler string or (for the java family) a map from
  handler flavor to handler string.  The planners are parameterised over this
  table (`rc`); a concrete table modelled from the spec is `RUNTIME_CONFIG`.
* Exceptions become the `Err` sum: `UpdateLambdaException msg`,
  `MultipleLayersException`, plus the unhandled Python `IndexError` /
  `AttributeError` that the source can raise.
* Both planners shallow-copy the input config and then mutate the shared nested
  `Environment.Variables` / `Layers` state; each is embedded as a function
  returning the result together with the post-call state of the input config.
-/

set_option linter.unusedVariables false

deriving instance DecidableEq for Except

/-- Python dict of string-valued environment variables, as an
insertion-ordered association list. -/
abbrev VarsT := List (String × String)

/-- Python `d.get(k)`. -/
def dictGet (d : VarsT) (k : String) : Option String :=
  match d with
  | [] => none
  | (k', v) :: rest => if k' = k then some v else dictGet rest k

/-- Python `d[k] = v`: overwrite in place if present, else append. -/
def dictSet (d : VarsT) (k v : String) : VarsT :=
  match d with
  | [] => [(k, v)]
  | (k', v') :: rest => if k' = k then (k', v) :: rest else (k', v') :: dictSet rest k v

/-- Python `del d[k]` wrapped in `try/except KeyError: pass`: remove the key
if present, otherwise leave the dict unchanged. -/
def dictDel (d : VarsT) (k : String) : VarsT :=
  match d with
  | [] => []
  | (k', v') :: rest => if k' = k then rest else (k', v') :: dictDel rest k

/-- Python `s.startswith(pfx)` (character-list comparison, so that concrete
instances evaluate by kernel reduction). -/
def pyStartswith (s pfx : String) : Bool := pfx.data.isPrefixOf s.data

/-- Python truthiness of a possibly-absent string (`None` and `""` are falsy). -/
def pyTruthy : Option String → Bool
  | none => false
  | some s => s != ""

/-- Python `a or b` for possibly-absent strings. -/
def pyOr (a b : Option String) : Option String :=
  if pyTruthy a then a else b

/-- Python stores `None` where the source writes an absent original handler into
an environment variable; modelled as `""`, which is falsy-equivalent in every
read this module performs. -/
def pyStr (o : Option String) : String := o.getD ""

/-- The `"Handler"` value of a `RUNTIME_CONFIG` entry: a plain handler string,
or (java family) a dict from handler flavor to handler string. -/
inductive HandlerVal
  | str : String → HandlerVal
  | byFlavor : List (String × String) → HandlerVal
deriving DecidableEq

/-- The static runtime table: runtime name to the `"Handler"` value of its
`utils.RUNTIME_CONFIG` entry. -/
abbrev RuntimeConfigT := List (String × HandlerVal)

/-- Python `==` between the function's current handler (a possibly-absent
string) and the table-derived runtime handler. -/
def pyEqHandler : Option String → Option HandlerVal → Bool
  | none, none => true
  | some s, some (HandlerVal.str t) => s == t
  | _, _ => false

/-- One entry of the function's `"Layers"` list: a dict with an `"Arn"` key. -/
structure LayerRef where
  Arn : String
deriving DecidableEq

/-- The `"LatestMatchingVersion"` sub-dict of a discovered layer. -/
structure MatchingVersion where
  LayerVersionArn : String
deriving DecidableEq

/-- One discovered layer as returned by the layer registry. -/
structure DiscoLayer where
  LatestMatchingVersion : MatchingVersion
  Description : String
deriving DecidableEq

/-- The `"Configuration"` sub-dict of a fetched function config, restricted to
the keys the planners read.  `Runtime` is read with default `""`; `Handler` is
read without a default in `_add_new_relic` (hence `Option`); the
`Environment.Variables` chain and `Layers` are read with default empty. -/
structure Configuration where
  Runtime : String
  Handler : Option String
  Variables : VarsT
  Layers : List LayerRef
deriving DecidableEq

/-- A fetched function config (`AwsLambda.get_function` result). -/
structure Config where
  Configuration : Configuration
deriving DecidableEq

/-- The exceptions the planners can raise: `UpdateLambdaException` with its
message, `MultipleLayersException`, and the unhandled Python `IndexError` /
`AttributeError` reachable in the source. -/
inductive Err
  | updateLambda : String → Err
  | multipleLayers : Err
  | indexError : Err
  | attributeError : Err
deriving DecidableEq

/-- Message of the missing-account-id error. -/
def msgMissingAccount : String := "Account ID missing from parameters."

/-- Message of the java-flavor-required error. -/
def msgJavaType : String := "Must specify a handler type for java functions."

/-- Message of the already-installed error. -/
def msgAlready : String :=
  "Already installed. Pass --upgrade (or -u) to allow upgrade or " ++
  "reinstall to latest layer version."

/-- Message of the unsupported-runtime error. -/
def msgUnsupported (runtime : String) : String :=
  "Unsupported Lambda runtime: " ++ runtime

/-- Message of the uninstall not-detected error for an unrecognized handler. -/
def msgNotDetectedHandler : String :=
  "New Relic installation (via layers) not auto-detected for the specified " ++
  "function.\n" ++ "Error: Unrecognized handler in deployed function."

/-- Message of the uninstall not-detected error for a missing marker variable. -/
def msgNotDetectedEnv : String :=
  "New Relic installation (via layers) not auto-detected for the specified " ++
  "function.\n" ++
  "Error: Environment variable NEW_RELIC_LAMBDA_HANDLER or NEW_RELIC_GENERIC_HANDLER not " ++
  "found."

/-- Lines 40-53 of the source: look up the runtime handler in the table, then
the java special case (flavor mandatory; `.get(java_type)` on the `"Handler"`
sub-dict, which in Python would raise `AttributeError` were the entry a plain
string). -/
def resolveRuntimeHandler (rc : RuntimeConfigT) (runtime java_type : String) :
    Except Err (Option HandlerVal) :=
  let runtime_handler := rc.lookup runtime
  if pyStartswith runtime "java" then
    if java_type = "" then Except.error (Err.updateLambda msgJavaType)
    else
      match rc.lookup runtime with
      | none => Except.ok none
      | some (HandlerVal.byFlavor m) => Except.ok ((m.lookup java_type).map HandlerVal.str)
      | some (HandlerVal.str _) => Except.error Err.attributeError
  else Except.ok runtime_handler

/-- Lines 80-101 of the source: the layer list to install.  An explicit layer
ARN is used verbatim; otherwise the source initialises `new_relic_layers = []`,
tests `len(new_relic_layers) > 1` (the length of that still-empty list, not of
`disco_layers`) before raising `MultipleLayersException`, and then indexes
`disco_layers[0]` (an `IndexError` when discovery returned nothing). -/
def resolveNewLayers (layer_arn : String) (disco_layers : List DiscoLayer) :
    Except Err (List String) :=
  let new_relic_layers : List String := []
  if layer_arn != "" then Except.ok [layer_arn]
  else if new_relic_layers.length > 1 then Except.error Err.multipleLayers
  else
    match disco_layers with
    | [] => Except.error Err.indexError
    | d :: _ => Except.ok [d.LatestMatchingVersion.LayerVersionArn]

/-- The `update_function_configuration` kwargs built by `_add_new_relic`
(`Environment.Variables` flattened to `Variables`). -/
structure UpdateKwargs where
  FunctionName : String
  Handler : Option HandlerVal
  Variables : VarsT
  Layers : List String
deriving DecidableEq

/-- `_add_new_relic(config, region, function_arn, layer_arn, account_id,
java_type, allow_upgrade)`.  Returns the raised exception or the update kwargs,
together with the post-call state of `config` (its nested
`Environment.Variables` dict is shared with the shallow copy and is mutated on
the success path at lines 116-127). -/
def addNewRelic (rc : RuntimeConfigT) (pfx : String) (disco_layers : List DiscoLayer)
    (config : Config) (function_arn layer_arn account_id java_type : String)
    (allow_upgrade : Bool) : Except Err UpdateKwargs × Config :=
  let info := config
  let runtime := info.Configuration.Runtime
  let orig_handler := info.Configuration.Handler
  if account_id = "" then (Except.error (Err.updateLambda msgMissingAccount), config)
  else
    match resolveRuntimeHandler rc runtime java_type with
    | Except.error e => (Except.error e, config)
    | Except.ok runtime_handler =>
      if !allow_upgrade && pyEqHandler orig_handler runtime_handler then
        (Except.error (Err.updateLambda msgAlready), config)
      else if runtime == "provider" || (rc.lookup runtime).isNone then
        (Except.error (Err.updateLambda (msgUnsupported runtime)), config)
      else
        let existing_layers :=
          (info.Configuration.Layers.map (fun l => l.Arn)).filter
            (fun a => !pyStartswith a pfx)
        match resolveNewLayers layer_arn disco_layers with
        | Except.error e => (Except.error e, config)
        | Except.ok new_relic_layers =>
          let vars0 := info.Configuration.Variables
          let vars1 := dictSet vars0 "NEW_RELIC_ACCOUNT_ID" account_id
          let vars2 :=
            if !pyEqHandler orig_handler runtime_handler then
              if pyStartswith runtime "java" then
                dictSet vars1 "NEW_RELIC_GENERIC_HANDLER" (pyStr orig_handler)
              else
                dictSet vars1 "NEW_RELIC_LAMBDA_HANDLER" (pyStr orig_handler)
            else vars1
          (Except.ok
            { FunctionName := function_arn
              Handler := runtime_handler
              Variables := vars2
              Layers := new_relic_layers ++ existing_layers },
           { Configuration := { info.Configuration with Variables := vars2 } })

/-- Modelled from the spec: `utils.is_valid_handler` is not under `src/`.
Per the spec, uninstall detection accepts a handler iff it equals the expected
instrumentation handler derived from the runtime alone — for the multi-flavor
family, any flavor's instrumentation handler counts if it matches. -/
def is_valid_handler (rc : RuntimeConfigT) (runtime handler : String) : Bool :=
  match rc.lookup runtime with
  | none => false
  | some (HandlerVal.str s) => handler == s
  | some (HandlerVal.byFlavor m) => m.any (fun p => handler == p.2)

/-- Lines 191-193 of the source: `for layer_idx, layer_arn in enumerate(layers)`
with `del layers[layer_idx]` on a vendor-prefixed ARN.  At iteration `i` the
Python iterator reads index `i` of the *current* list (if still in range), and a
deletion shifts the remaining elements left while the iterator still advances,
so the element following a deleted one is never examined. -/
def removeLayersLoop (pfx : String) (i : Nat) (layers : List LayerRef) : List LayerRef :=
  if h : i < layers.length then
    if pyStartswith (layers.get ⟨i, h⟩).Arn pfx then
      removeLayersLoop pfx (i + 1) (layers.eraseIdx i)
    else
      removeLayersLoop pfx (i + 1) layers
  else layers
termination_by layers.length - i
decreasing_by
  · have := List.length_eraseIdx_of_lt (l := layers) (i := i) h
    omega
  · omega

/-- The `update_function_configuration` kwargs built by `_remove_new_relic`
(note the source puts the remaining `"Layers"` dicts, not bare ARNs, in the
output). -/
structure RemoveKwargs where
  FunctionName : String
  Handler : Option String
  Variables : VarsT
  Layers : List LayerRef
deriving DecidableEq

/-- `_remove_new_relic(config, region, function_arn, layer_arn)`.  Returns the
raised exception or the update kwargs, together with the post-call state of
`config` (its nested `Environment.Variables` and `Layers` are mutated on the
success path at lines 179-193). -/
def removeNewRelic (rc : RuntimeConfigT) (pfx : String) (config : Config)
    (function_arn layer_arn : String) : Except Err RemoveKwargs × Config :=
  let info := config
  let runtime := info.Configuration.Runtime
  let orig_handler := info.Configuration.Handler.getD ""
  if runtime == "provider" || (rc.lookup runtime).isNone then
    (Except.error (Err.updateLambda (msgUnsupported runtime)), config)
  else if !is_valid_handler rc runtime orig_handler then
    (Except.error (Err.updateLambda msgNotDetectedHandler), config)
  else
    let vars := info.Configuration.Variables
    let env_handler := dictGet vars "NEW_RELIC_LAMBDA_HANDLER"
    let env_alt_handler := dictGet vars "NEW_RELIC_GENERIC_HANDLER"
    let env_handler := pyOr env_handler env_alt_handler
    if !pyTruthy env_handler then
      (Except.error (Err.updateLambda msgNotDetectedEnv), config)
    else
      let vars1 :=
        dictDel (dictDel (dictDel vars "NEW_RELIC_LAMBDA_HANDLER")
          "NEW_RELIC_GENERIC_HANDLER") "NEW_RELIC_ACCOUNT_ID"
      let layers := removeLayersLoop pfx 0 info.Configuration.Layers
      (Except.ok
        { FunctionName := function_arn
          Handler := env_handler
          Variables := vars1
          Layers := layers },
       { Configuration :=
          { info.Configuration with Variables := vars1, Layers := layers } })

/-- Modelled from the spec: the static `utils.RUNTIME_CONFIG` table is not under
`src/`.  Per the spec, `"python3.9"` is a supported runtime with a single
instrumentation handler, and `"java11"` is in the multi-flavor family with two
legal flavors; the handler strings are representative literals. -/
def RUNTIME_CONFIG : RuntimeConfigT :=
  [ ("python3.9", HandlerVal.str "newrelic_lambda_wrapper.handler"),
    ("java11", HandlerVal.byFlavor
      [ ("handler", "com.newrelic.java.HandlerWrapper::handleRequest"),
        ("streaming", "com.newrelic.java.HandlerWrapperStreaming::handleStreamsRequest") ]) ]

/-- The function config the caller observes after applying an install patch via
the provider's update API (spec section 2 control flow); the runtime is not part
of the patch and stays as it was. -/
def configOfPatch (runtime : String) (kw : UpdateKwargs) : Config :=
  { Configuration :=
    { Runtime := runtime
      Handler :=
        match kw.Handler with
        | some (HandlerVal.str s) => some s
        | _ => none
      Variables := kw.Variables
      Layers := kw.Layers.map (fun a => { Arn := a }) } }

theorem dictGet_dictSet_self (d : VarsT) (k v : String) :
    dictGet (dictSet d k v) k = some v := by
  induction d with
  | nil => simp [dictGet, dictSet]
  | cons p rest ih =>
    obtain ⟨k', v'⟩ := p
    by_cases h : k' = k
    · simp [dictGet, dictSet, h]
    · simp [dictGet, dictSet, h, ih]

theorem dictGet_dictSet_ne (d : VarsT) (k v k' : String) (h : k' ≠ k) :
    dictGet (dictSet d k v) k' = dictGet d k' := by
  have h2 : k ≠ k' := fun hh => h hh.symm
  induction d with
  | nil => simp [dictGet, dictSet, h2]
  | cons p rest ih =>
    obtain ⟨k0, v0⟩ := p
    by_cases h0 : k0 = k
    · subst h0
      simp [dictGet, dictSet, h2]
    · simp [dictGet, dictSet, h0, ih]

theorem lookup_imp_any (m : List (String × String)) (k v : String)
    (h : m.lookup k = some v) : m.any (fun p => v == p.2) = true := by
  induction m with
  | nil => simp [List.lookup] at h
  | cons p rest ih =>
    obtain ⟨k0, v0⟩ := p
    rw [List.lookup] at h
    by_cases h0 : k = k0
    · simp [h0] at h
      simp [List.any_cons, h]
    · have : (k == k0) = false := by simp [h0]
      rw [this] at h
      simp only [List.any_cons]
      rw [ih h]
      simp

theorem removeLayersLoop_all_keep (pfx : String) (l : List LayerRef)
    (hl : ∀ x ∈ l, pyStartswith x.Arn pfx = false) :
    ∀ i, removeLayersLoop pfx i l = l := by
  have key : ∀ n i, l.length - i ≤ n → removeLayersLoop pfx i l = l := by
    intro n
    induction n with
    | zero =>
      intro i hi
      rw [removeLayersLoop]
      have : ¬ i < l.length := by omega
      simp [this]
    | succ n ih =>
      intro i hi
      rw [removeLayersLoop]
      by_cases hlt : i < l.length
      · have hx := hl (l.get ⟨i, hlt⟩) (l.get_mem i hlt)
        simp only [hlt, dif_pos, hx, if_neg, Bool.false_eq_true, not_false_eq_true]
        exact ih (i + 1) (by omega)
      · simp [hlt]
  exact fun i => key l.length i (by omega)

theorem map_mk_arn (l : List LayerRef) :
    (l.map (fun x => x.Arn)).map (fun a => ({ Arn := a } : LayerRef)) = l := by
  induction l with
  | nil => rfl
  | cons x rest ih => simp [ih]

/-- C1: the claim fails on the code.  At the failing input — no explicit layer
ARN supplied and layer discovery returning two candidate layers —
`_add_new_relic` does not raise `MultipleLayersException`: the source guards the
raise with `len(new_relic_layers) > 1`, the length of the freshly-initialised
empty list, instead of `len(disco_layers)`, so it silently returns a patch that
installs the first discovered candidate. -/
theorem c1_two_candidates_first_installed :
    (addNewRelic RUNTIME_CONFIG "nr:us-east-1:"
      [⟨⟨"nr:us-east-1:layer:one"⟩, "first python layer"⟩,
       ⟨⟨"nr:us-east-1:layer:two"⟩, "second python layer"⟩]
      ⟨⟨"python3.9", some "app.handler", [], []⟩⟩ "fn" "" "123" "" false).1 =
    Except.ok
      { FunctionName := "fn"
        Handler := some (HandlerVal.str "newrelic_lambda_wrapper.handler")
        Variables := [("NEW_RELIC_ACCOUNT_ID", "123"),
                      ("NEW_RELIC_LAMBDA_HANDLER", "app.handler")]
        Layers := ["nr:us-east-1:layer:one"] } := by
  decide

/-- C2: the claim fails on the code.  At the failing input — two vendor-prefixed
layers at adjacent positions followed by a non-vendor layer —
`_remove_new_relic` succeeds but its output layer list still contains the
second vendor-prefixed layer: the source deletes by index during forward
iteration, so the element following each deleted one is skipped. -/
theorem c2_adjacent_vendor_layer_survives :
    (removeNewRelic RUNTIME_CONFIG "nr:us-east-1:"
      ⟨⟨"python3.9", some "newrelic_lambda_wrapper.handler",
        [("NEW_RELIC_LAMBDA_HANDLER", "app.handler")],
        [⟨"nr:us-east-1:layer:one"⟩, ⟨"nr:us-east-1:layer:two"⟩, ⟨"keep:layer"⟩]⟩⟩
      "fn" "").1 =
    Except.ok
      { FunctionName := "fn"
        Handler := some "app.handler"
        Variables := []
        Layers := [⟨"nr:us-east-1:layer:two"⟩, ⟨"keep:layer"⟩] } ∧
    pyStartswith "nr:us-east-1:layer:two" "nr:us-east-1:" = true := by
  constructor
  · simp [removeNewRelic, removeLayersLoop, is_valid_handler, dictGet, dictDel,
      pyOr, pyTruthy, pyStartswith, RUNTIME_CONFIG]
  · decide

/-- C7: concrete scenario — runtime `"python3.9"`, handler `"app.handler"`, no
layers, account id `"123"`, no explicit layer ARN, discovery returning exactly
one candidate.  `_add_new_relic` returns a patch whose handler is the runtime's
instrumentation handler, whose layer list is exactly the resolved layer ARN,
and whose environment variables bind `NEW_RELIC_LAMBDA_HANDLER` to
`"app.handler"` and `NEW_RELIC_ACCOUNT_ID` to `"123"`. -/
theorem c7_concrete_python39_install :
    ∃ kw, (addNewRelic RUNTIME_CONFIG "nr:us-east-1:"
      [⟨⟨"nr:us-east-1:layer:14"⟩, "python layer"⟩]
      ⟨⟨"python3.9", some "app.handler", [], []⟩⟩ "fn" "" "123" "" false).1 =
      Except.ok kw ∧
      kw.Handler = some (HandlerVal.str "newrelic_lambda_wrapper.handler") ∧
      kw.Layers = ["nr:us-east-1:layer:14"] ∧
      dictGet kw.Variables "NEW_RELIC_LAMBDA_HANDLER" = some "app.handler" ∧
      dictGet kw.Variables "NEW_RELIC_ACCOUNT_ID" = some "123" := by
  refine ⟨{ FunctionName := "fn"
            Handler := some (HandlerVal.str "newrelic_lambda_wrapper.handler")
            Variables := [("NEW_RELIC_ACCOUNT_ID", "123"),
                          ("NEW_RELIC_LAMBDA_HANDLER", "app.handler")]
            Layers := ["nr:us-east-1:layer:14"] }, ?_, ?_, ?_, ?_, ?_⟩ <;> decide

/-- C10: implicit precondition at the install interface — when no explicit
layer ARN is supplied and discovery returns an empty list, `_add_new_relic`
hits the out-of-bounds `disco_layers[0]` access: it neither returns a patch nor
fails with an error of the tool's taxonomy (the result is the unhandled Python
`IndexError`). -/
theorem c10_empty_discovery_index_error
    (rc : RuntimeConfigT) (pfx : String) (config : Config) (fn acct jt : String)
    (au : Bool) (rh : Option HandlerVal)
    (hacct : acct ≠ "")
    (hrh : resolveRuntimeHandler rc config.Configuration.Runtime jt = Except.ok rh)
    (hguard : (!au && pyEqHandler config.Configuration.Handler rh) = false)
    (hprov : config.Configuration.Runtime ≠ "provider")
    (hsup : (rc.lookup config.Configuration.Runtime).isSome) :
    (addNewRelic rc pfx [] config fn "" acct jt au).1 = Except.error Err.indexError := by
  simp only [addNewRelic, hrh, hguard, resolveNewLayers]
  simp only [Option.isSome_iff_exists] at hsup
  obtain ⟨hv, hlk⟩ := hsup
  simp [hacct, hprov, hguard, hlk]

/-- Witness for C10 at a concrete input. -/
theorem c10_empty_discovery_index_error_witness :
    (addNewRelic RUNTIME_CONFIG "nr:us-east-1:" []
      ⟨⟨"python3.9", some "app.handler", [], []⟩⟩ "fn" "" "123" "" false).1 =
    Except.error Err.indexError :=
  c10_empty_discovery_index_error RUNTIME_CONFIG "nr:us-east-1:"
    ⟨⟨"python3.9", some "app.handler", [], []⟩⟩ "fn" "123" "" false
    (some (HandlerVal.str "newrelic_lambda_wrapper.handler"))
    (by decide) (by decide) (by decide) (by decide) (by decide)

/-- C4: on a config whose current handler already equals the runtime's
instrumentation handler (and with the mandatory account id, and the flavor
where the runtime requires one), `_add_new_relic` with `allow_upgrade = false`
fails with the already-installed error; with `allow_upgrade = true` it succeeds
(when the runtime is supported and a layer is resolvable) and its output
environment variables leave both pre-existing original-handler marker variables
exactly as they were in the input. -/
theorem c4_already_installed_guard_and_upgrade_marker
    (rc : RuntimeConfigT) (pfx : String) (disco_layers : List DiscoLayer)
    (config : Config) (fn la acct jt : String)
    (rh : Option HandlerVal)
    (hacct : acct ≠ "")
    (hrh : resolveRuntimeHandler rc config.Configuration.Runtime jt = Except.ok rh)
    (heq : pyEqHandler config.Configuration.Handler rh = true) :
    (addNewRelic rc pfx disco_layers config fn la acct jt false).1 =
      Except.error (Err.updateLambda msgAlready) ∧
    (config.Configuration.Runtime ≠ "provider" →
      (rc.lookup config.Configuration.Runtime).isSome →
      ∀ nls, resolveNewLayers la disco_layers = Except.ok nls →
      ∃ kw, (addNewRelic rc pfx disco_layers config fn la acct jt true).1 = Except.ok kw ∧
        dictGet kw.Variables "NEW_RELIC_LAMBDA_HANDLER" =
          dictGet config.Configuration.Variables "NEW_RELIC_LAMBDA_HANDLER" ∧
        dictGet kw.Variables "NEW_RELIC_GENERIC_HANDLER" =
          dictGet config.Configuration.Variables "NEW_RELIC_GENERIC_HANDLER") := by
  constructor
  · simp only [addNewRelic, hrh]
    simp [hacct, heq]
  · intro hprov hsup nls hnls
    simp only [Option.isSome_iff_exists] at hsup
    obtain ⟨hv, hlk⟩ := hsup
    simp only [addNewRelic, hrh, hnls]
    simp [hacct, hprov, hlk, heq]
    refine ⟨?_, ?_⟩
    · exact dictGet_dictSet_ne _ _ _ _ (by decide)
    · exact dictGet_dictSet_ne _ _ _ _ (by decide)

/-- Witness for C4 at a concrete input: an already-instrumented python3.9
config carrying a pre-existing marker variable. -/
theorem c4_already_installed_guard_and_upgrade_marker_witness :
    (addNewRelic RUNTIME_CONFIG "nr:us-east-1:"
      [⟨⟨"nr:us-east-1:layer:14"⟩, "python layer"⟩]
      ⟨⟨"python3.9", some "newrelic_lambda_wrapper.handler",
        [("NEW_RELIC_LAMBDA_HANDLER", "app.handler")], []⟩⟩
      "fn" "" "123" "" false).1 =
      Except.error (Err.updateLambda msgAlready) ∧
    ("python3.9" ≠ "provider" →
      (RUNTIME_CONFIG.lookup "python3.9").isSome →
      ∀ nls, resolveNewLayers "" [⟨⟨"nr:us-east-1:layer:14"⟩, "python layer"⟩] =
        Except.ok nls →
      ∃ kw, (addNewRelic RUNTIME_CONFIG "nr:us-east-1:"
        [⟨⟨"nr:us-east-1:layer:14"⟩, "python layer"⟩]
        ⟨⟨"python3.9", some "newrelic_lambda_wrapper.handler",
          [("NEW_RELIC_LAMBDA_HANDLER", "app.handler")], []⟩⟩
        "fn" "" "123" "" true).1 = Except.ok kw ∧
        dictGet kw.Variables "NEW_RELIC_LAMBDA_HANDLER" =
          dictGet [("NEW_RELIC_LAMBDA_HANDLER", "app.handler")] "NEW_RELIC_LAMBDA_HANDLER" ∧
        dictGet kw.Variables "NEW_RELIC_GENERIC_HANDLER" =
          dictGet [("NEW_RELIC_LAMBDA_HANDLER", "app.handler")] "NEW_RELIC_GENERIC_HANDLER") :=
  c4_already_installed_guard_and_upgrade_marker RUNTIME_CONFIG "nr:us-east-1:"
    [⟨⟨"nr:us-east-1:layer:14"⟩, "python layer"⟩]
    ⟨⟨"python3.9", some "newrelic_lambda_wrapper.handler",
      [("NEW_RELIC_LAMBDA_HANDLER", "app.handler")], []⟩⟩
    "fn" "" "123" ""
    (some (HandlerVal.str "newrelic_lambda_wrapper.handler"))
    (by decide) (by decide) (by decide)

/-- C5: for a supported runtime, `_remove_new_relic` fails with the
not-detected error whenever the current handler is not a recognized
instrumentation handler for the runtime, fails with the marker-missing
not-detected error whenever the handler is recognized but neither
original-handler marker variable is (truthily) present, and never returns a
patch unless both detection conditions hold. -/
theorem c5_remove_detection_guards
    (rc : RuntimeConfigT) (pfx : String) (config : Config) (fn la : String)
    (hprov : config.Configuration.Runtime ≠ "provider")
    (hsup : (rc.lookup config.Configuration.Runtime).isSome) :
    (is_valid_handler rc config.Configuration.Runtime
        (config.Configuration.Handler.getD "") = false →
      (removeNewRelic rc pfx config fn la).1 =
        Except.error (Err.updateLambda msgNotDetectedHandler)) ∧
    (is_valid_handler rc config.Configuration.Runtime
        (config.Configuration.Handler.getD "") = true →
      pyTruthy (pyOr (dictGet config.Configuration.Variables "NEW_RELIC_LAMBDA_HANDLER")
        (dictGet config.Configuration.Variables "NEW_RELIC_GENERIC_HANDLER")) = false →
      (removeNewRelic rc pfx config fn la).1 =
        Except.error (Err.updateLambda msgNotDetectedEnv)) ∧
    (∀ kw, (removeNewRelic rc pfx config fn la).1 = Except.ok kw →
      is_valid_handler rc config.Configuration.Runtime
        (config.Configuration.Handler.getD "") = true ∧
      pyTruthy (pyOr (dictGet config.Configuration.Variables "NEW_RELIC_LAMBDA_HANDLER")
        (dictGet config.Configuration.Variables "NEW_RELIC_GENERIC_HANDLER")) = true) := by
  obtain ⟨hv, hlk⟩ := Option.isSome_iff_exists.mp hsup
  refine ⟨?_, ?_, ?_⟩
  · intro hbad
    simp only [removeNewRelic]
    simp [hprov, hlk, hbad]
  · intro hok hmk
    simp only [removeNewRelic]
    simp [hprov, hlk, hok, hmk]
  · intro kw hkw
    simp only [removeNewRelic] at hkw
    by_cases hvh : is_valid_handler rc config.Configuration.Runtime
        (config.Configuration.Handler.getD "") = true
    · refine ⟨hvh, ?_⟩
      by_cases hmk : pyTruthy (pyOr
          (dictGet config.Configuration.Variables "NEW_RELIC_LAMBDA_HANDLER")
          (dictGet config.Configuration.Variables "NEW_RELIC_GENERIC_HANDLER")) = true
      · exact hmk
      · rw [Bool.not_eq_true] at hmk
        simp [hprov, hlk, hvh, hmk] at hkw
    · rw [Bool.not_eq_true] at hvh
      simp [hprov, hlk, hvh] at hkw

/-- Witness for C5 at a concrete input: a python3.9 config whose handler was
never rewritten by the tool. -/
theorem c5_remove_detection_guards_witness :
    (is_valid_handler RUNTIME_CONFIG "python3.9" "app.handler" = false →
      (removeNewRelic RUNTIME_CONFIG "nr:us-east-1:"
        ⟨⟨"python3.9", some "app.handler", [], []⟩⟩ "fn" "").1 =
        Except.error (Err.updateLambda msgNotDetectedHandler)) ∧
    (is_valid_handler RUNTIME_CONFIG "python3.9" "app.handler" = true →
      pyTruthy (pyOr (dictGet [] "NEW_RELIC_LAMBDA_HANDLER")
        (dictGet [] "NEW_RELIC_GENERIC_HANDLER")) = false →
      (removeNewRelic RUNTIME_CONFIG "nr:us-east-1:"
        ⟨⟨"python3.9", some "app.handler", [], []⟩⟩ "fn" "").1 =
        Except.error (Err.updateLambda msgNotDetectedEnv)) ∧
    (∀ kw, (removeNewRelic RUNTIME_CONFIG "nr:us-east-1:"
        ⟨⟨"python3.9", some "app.handler", [], []⟩⟩ "fn" "").1 = Except.ok kw →
      is_valid_handler RUNTIME_CONFIG "python3.9" "app.handler" = true ∧
      pyTruthy (pyOr (dictGet [] "NEW_RELIC_LAMBDA_HANDLER")
        (dictGet [] "NEW_RELIC_GENERIC_HANDLER")) = true) :=
  c5_remove_detection_guards RUNTIME_CONFIG "nr:us-east-1:"
    ⟨⟨"python3.9", some "app.handler", [], []⟩⟩ "fn" "" (by decide) (by decide)

/-- C6: every successful `_add_new_relic` call returns a layer list that is
exactly the resolved new layer(s) followed by every input layer ARN that does
not start with the vendor prefix, in order; in particular no non-vendor input
layer is dropped. -/
theorem c6_install_layer_order
    (rc : RuntimeConfigT) (pfx : String) (disco_layers : List DiscoLayer)
    (config : Config) (fn la acct jt : String) (au : Bool) (kw : UpdateKwargs)
    (h : (addNewRelic rc pfx disco_layers config fn la acct jt au).1 = Except.ok kw) :
    ∃ nls, resolveNewLayers la disco_layers = Except.ok nls ∧
      kw.Layers = nls ++ (config.Configuration.Layers.map (fun l => l.Arn)).filter
        (fun a => !pyStartswith a pfx) ∧
      (∀ a ∈ config.Configuration.Layers.map (fun l => l.Arn),
        pyStartswith a pfx = false → a ∈ kw.Layers) := by
  simp only [addNewRelic] at h
  split at h
  · simp at h
  · split at h
    · simp at h
    · split at h
      · simp at h
      · split at h
        · simp at h
        · split at h
          · simp at h
          · rename_i nls hnl
            rw [Except.ok.injEq] at h
            subst h
            refine ⟨nls, hnl, by simp, ?_⟩
            intro a ha hpa
            simp only []
            refine List.mem_append_right _ (List.mem_filter.mpr ⟨ha, by simp [hpa]⟩)

/-- Witness for C6 at a concrete input: one pre-existing vendor layer (filtered
out), one pre-existing non-vendor layer (preserved after the new layer). -/
theorem c6_install_layer_order_witness :
    ∃ nls, resolveNewLayers "" [⟨⟨"nr:us-east-1:layer:new"⟩, "python layer"⟩] =
      Except.ok nls ∧
      (["nr:us-east-1:layer:new", "keep:layer"] : List String) =
        nls ++ ((([⟨"nr:us-east-1:layer:old"⟩, ⟨"keep:layer"⟩] : List LayerRef)).map
          (fun l => l.Arn)).filter (fun a => !pyStartswith a "nr:us-east-1:") ∧
      (∀ a ∈ (([⟨"nr:us-east-1:layer:old"⟩, ⟨"keep:layer"⟩] : List LayerRef)).map
          (fun l => l.Arn),
        pyStartswith a "nr:us-east-1:" = false →
          a ∈ (["nr:us-east-1:layer:new", "keep:layer"] : List String)) :=
  c6_install_layer_order RUNTIME_CONFIG "nr:us-east-1:"
    [⟨⟨"nr:us-east-1:layer:new"⟩, "python layer"⟩]
    ⟨⟨"python3.9", some "app.handler", [],
      [⟨"nr:us-east-1:layer:old"⟩, ⟨"keep:layer"⟩]⟩⟩
    "fn" "" "123" "" false
    { FunctionName := "fn"
      Handler := some (HandlerVal.str "newrelic_lambda_wrapper.handler")
      Variables := [("NEW_RELIC_ACCOUNT_ID", "123"),
                    ("NEW_RELIC_LAMBDA_HANDLER", "app.handler")]
      Layers := ["nr:us-east-1:layer:new", "keep:layer"] }
    (by decide)

/-- C8 counterexample: on a config where both original-handler marker variables
are present — `NEW_RELIC_GENERIC_HANDLER` bound to `"generic.handler"` and
`NEW_RELIC_LAMBDA_HANDLER` bound to `"lambda.handler"` — `_remove_new_relic`
restores the value of the single-entry key `NEW_RELIC_LAMBDA_HANDLER`, not the
multi-entry key as the claim states: the source computes
`env_handler or env_alt_handler` with the single-entry read first. -/
theorem c8_marker_priority_counterexample :
    (removeNewRelic RUNTIME_CONFIG "nr:us-east-1:"
      ⟨⟨"python3.9", some "newrelic_lambda_wrapper.handler",
        [("NEW_RELIC_GENERIC_HANDLER", "generic.handler"),
         ("NEW_RELIC_LAMBDA_HANDLER", "lambda.handler")], []⟩⟩ "fn" "").1 =
    Except.ok
      { FunctionName := "fn"
        Handler := some "lambda.handler"
        Variables := []
        Layers := [] } ∧
    ("lambda.handler" : String) ≠ "generic.handler" := by
  constructor
  · simp [removeNewRelic, removeLayersLoop, is_valid_handler, dictGet, dictDel,
      pyOr, pyTruthy, pyStartswith, RUNTIME_CONFIG]
  · decide

/-- C8 as amended: the restored handler of every successful `_remove_new_relic`
call is the Python `or` of the two marker reads with the single-entry key
`NEW_RELIC_LAMBDA_HANDLER` checked first, the multi-entry key
`NEW_RELIC_GENERIC_HANDLER` being only a fallback when the single-entry key is
absent or empty. -/
theorem c8_single_entry_key_priority
    (rc : RuntimeConfigT) (pfx : String) (config : Config) (fn la : String)
    (kw : RemoveKwargs)
    (h : (removeNewRelic rc pfx config fn la).1 = Except.ok kw) :
    kw.Handler = pyOr (dictGet config.Configuration.Variables "NEW_RELIC_LAMBDA_HANDLER")
      (dictGet config.Configuration.Variables "NEW_RELIC_GENERIC_HANDLER") := by
  simp only [removeNewRelic] at h
  split at h
  · simp at h
  · split at h
    · simp at h
    · split at h
      · simp at h
      · rw [Except.ok.injEq] at h
        subst h
        rfl

/-- Witness for the amended C8 at a concrete input with both marker variables
present. -/
theorem c8_single_entry_key_priority_witness :
    ({ FunctionName := "fn"
       Handler := some "lambda.handler"
       Variables := []
       Layers := [] } : RemoveKwargs).Handler =
    pyOr (dictGet [("NEW_RELIC_GENERIC_HANDLER", "generic.handler"),
                   ("NEW_RELIC_LAMBDA_HANDLER", "lambda.handler")]
            "NEW_RELIC_LAMBDA_HANDLER")
         (dictGet [("NEW_RELIC_GENERIC_HANDLER", "generic.handler"),
                   ("NEW_RELIC_LAMBDA_HANDLER", "lambda.handler")]
            "NEW_RELIC_GENERIC_HANDLER") :=
  c8_single_entry_key_priority RUNTIME_CONFIG "nr:us-east-1:"
    ⟨⟨"python3.9", some "newrelic_lambda_wrapper.handler",
      [("NEW_RELIC_GENERIC_HANDLER", "generic.handler"),
       ("NEW_RELIC_LAMBDA_HANDLER", "lambda.handler")], []⟩⟩ "fn" ""
    { FunctionName := "fn"
      Handler := some "lambda.handler"
      Variables := []
      Layers := [] }
    (by simp [removeNewRelic, removeLayersLoop, is_valid_handler, dictGet, dictDel,
      pyOr, pyTruthy, pyStartswith, RUNTIME_CONFIG])

/-- C9: whenever `_add_new_relic` or `_remove_new_relic` fails with any error,
the input configuration snapshot (handler, environment variables, layer list)
is unchanged by the call: every raise happens before the first mutation of the
shared, shallow-copied nested configuration state. -/
theorem c9_no_mutation_on_failure
    (rc : RuntimeConfigT) (pfx : String) (disco_layers : List DiscoLayer)
    (config : Config) (fn la acct jt : String) (au : Bool) (e e' : Err) :
    ((addNewRelic rc pfx disco_layers config fn la acct jt au).1 = Except.error e →
      (addNewRelic rc pfx disco_layers config fn la acct jt au).2 = config) ∧
    ((removeNewRelic rc pfx config fn la).1 = Except.error e' →
      (removeNewRelic rc pfx config fn la).2 = config) := by
  constructor
  · simp only [addNewRelic]
    split
    · intro _; rfl
    · split
      · intro _; rfl
      · split
        · intro _; rfl
        · split
          · intro _; rfl
          · split
            · intro _; rfl
            · intro h; simp at h
  · simp only [removeNewRelic]
    split
    · intro _; rfl
    · split
      · intro _; rfl
      · split
        · intro _; rfl
        · intro h; simp at h

/-- Witness for C9 at concrete failing inputs: install with a missing account
id, uninstall on an unsupported runtime. -/
theorem c9_no_mutation_on_failure_witness :
    ((addNewRelic RUNTIME_CONFIG "nr:us-east-1:" []
        ⟨⟨"go1.x", some "app.handler", [("A", "b")], [⟨"x"⟩]⟩⟩
        "fn" "" "" "" false).1 =
        Except.error (Err.updateLambda msgMissingAccount) →
      (addNewRelic RUNTIME_CONFIG "nr:us-east-1:" []
        ⟨⟨"go1.x", some "app.handler", [("A", "b")], [⟨"x"⟩]⟩⟩
        "fn" "" "" "" false).2 =
        ⟨⟨"go1.x", some "app.handler", [("A", "b")], [⟨"x"⟩]⟩⟩) ∧
    ((removeNewRelic RUNTIME_CONFIG "nr:us-east-1:"
        ⟨⟨"go1.x", some "app.handler", [("A", "b")], [⟨"x"⟩]⟩⟩ "fn" "").1 =
        Except.error (Err.updateLambda (msgUnsupported "go1.x")) →
      (removeNewRelic RUNTIME_CONFIG "nr:us-east-1:"
        ⟨⟨"go1.x", some "app.handler", [("A", "b")], [⟨"x"⟩]⟩⟩ "fn" "").2 =
        ⟨⟨"go1.x", some "app.handler", [("A", "b")], [⟨"x"⟩]⟩⟩) :=
  c9_no_mutation_on_failure RUNTIME_CONFIG "nr:us-east-1:" []
    ⟨⟨"go1.x", some "app.handler", [("A", "b")], [⟨"x"⟩]⟩⟩
    "fn" "" "" "" false
    (Err.updateLambda msgMissingAccount) (Err.updateLambda (msgUnsupported "go1.x"))

theorem valid_of_resolve (rc : RuntimeConfigT) (runtime jt rh : String)
    (h : resolveRuntimeHandler rc runtime jt = Except.ok (some (HandlerVal.str rh))) :
    is_valid_handler rc runtime rh = true := by
  unfold resolveRuntimeHandler at h
  by_cases hj : pyStartswith runtime "java" = true
  · simp only [hj, if_true] at h
    by_cases hjt : jt = ""
    · simp [hjt] at h
    · rw [if_neg hjt] at h
      cases hlk : rc.lookup runtime with
      | none => rw [hlk] at h; simp at h
      | some hvv =>
        cases hvv with
        | str s => rw [hlk] at h; simp at h
        | byFlavor m =>
          rw [hlk] at h
          simp only [Except.ok.injEq] at h
          unfold is_valid_handler
          rw [hlk]
          cases hml : m.lookup jt with
          | none => rw [hml] at h; simp at h
          | some v =>
            rw [hml] at h
            simp at h
            subst h
            exact lookup_imp_any m jt v hml
  · rw [Bool.not_eq_true] at hj
    simp only [hj, Bool.false_eq_true, if_false] at h
    simp only [Except.ok.injEq] at h
    unfold is_valid_handler
    rw [h]
    simp

theorem removeLayersLoop_cons_vendor (pfx : String) (x : LayerRef) (rest : List LayerRef)
    (hx : pyStartswith x.Arn pfx = true)
    (hrest : ∀ y ∈ rest, pyStartswith y.Arn pfx = false) :
    removeLayersLoop pfx 0 (x :: rest) = rest := by
  rw [removeLayersLoop]
  have h0 : 0 < (x :: rest).length := by simp
  simp only [h0, dif_pos]
  have hget : (x :: rest).get ⟨0, h0⟩ = x := rfl
  rw [hget, hx]
  simp only [if_true]
  have herase : (x :: rest).eraseIdx 0 = rest := rfl
  rw [herase]
  exact removeLayersLoop_all_keep pfx rest hrest 1

theorem filter_nonvendor_eq (pfx : String) (L : List LayerRef)
    (h : ∀ l ∈ L, pyStartswith l.Arn pfx = false) :
    (L.map (fun l => l.Arn)).filter (fun a => !pyStartswith a pfx) =
      L.map (fun l => l.Arn) := by
  rw [List.filter_eq_self]
  intro a ha
  obtain ⟨l, hl, rfl⟩ := List.mem_map.mp ha
  simp [h l hl]

theorem mk_arn (x : LayerRef) : ({ Arn := x.Arn } : LayerRef) = x := by
  cases x
  rfl

theorem map_mk_arn_comp (l : List LayerRef) :
    List.map ((fun a => ({ Arn := a } : LayerRef)) ∘ fun x => x.Arn) l = l := by
  induction l with
  | nil => rfl
  | cons x rest ih => simp only [List.map_cons, Function.comp_apply, mk_arn, ih]

/-- C3 counterexample: a java11 config carrying a stray pre-existing
`NEW_RELIC_LAMBDA_HANDLER` variable (`"stray.handler"`).  Install writes the
original handler under the multi-entry key `NEW_RELIC_GENERIC_HANDLER`, but
uninstall reads the single-entry key first, so the round trip restores
`"stray.handler"` instead of the original `"app.handler"` — refuting the claim
as stated for configs with a pre-existing marker variable. -/
theorem c3_roundtrip_counterexample :
    (addNewRelic RUNTIME_CONFIG "nr:us-east-1:" []
      ⟨⟨"java11", some "app.handler", [("NEW_RELIC_LAMBDA_HANDLER", "stray.handler")], []⟩⟩
      "fn" "nr:us-east-1:layer:j1" "123" "handler" false).1 =
    Except.ok
      { FunctionName := "fn"
        Handler := some (HandlerVal.str "com.newrelic.java.HandlerWrapper::handleRequest")
        Variables := [("NEW_RELIC_LAMBDA_HANDLER", "stray.handler"),
                      ("NEW_RELIC_ACCOUNT_ID", "123"),
                      ("NEW_RELIC_GENERIC_HANDLER", "app.handler")]
        Layers := ["nr:us-east-1:layer:j1"] } ∧
    (removeNewRelic RUNTIME_CONFIG "nr:us-east-1:"
      (configOfPatch "java11"
        { FunctionName := "fn"
          Handler := some (HandlerVal.str "com.newrelic.java.HandlerWrapper::handleRequest")
          Variables := [("NEW_RELIC_LAMBDA_HANDLER", "stray.handler"),
                        ("NEW_RELIC_ACCOUNT_ID", "123"),
                        ("NEW_RELIC_GENERIC_HANDLER", "app.handler")]
          Layers := ["nr:us-east-1:layer:j1"] })
      "fn" "nr:us-east-1:layer:j1").1 =
    Except.ok
      { FunctionName := "fn"
        Handler := some "stray.handler"
        Variables := []
        Layers := [] } ∧
    ("stray.handler" : String) ≠ "app.handler" := by
  refine ⟨by decide, ?_, by decide⟩
  simp [removeNewRelic, removeLayersLoop, configOfPatch, is_valid_handler, dictGet, dictDel,
    pyOr, pyTruthy, pyStartswith, RUNTIME_CONFIG, List.any, List.lookup]

/-- C3 as amended: for every supported runtime, every flavor required by it,
and every initial config with a present nonempty handler that differs from the
instrumentation handler, with no vendor-prefixed layers, and — for the java
family — no pre-existing truthy single-entry marker variable: `_add_new_relic`
(with a vendor-prefixed resolved layer) followed by `_remove_new_relic` on the
resulting patched config restores the original handler and the original layer
list exactly. -/
theorem c3_install_uninstall_roundtrip
    (rc : RuntimeConfigT) (pfx : String) (disco_layers : List DiscoLayer)
    (config : Config) (fn la acct jt : String) (au : Bool)
    (oh rh nl : String)
    (hacct : acct ≠ "")
    (hrh : resolveRuntimeHandler rc config.Configuration.Runtime jt =
      Except.ok (some (HandlerVal.str rh)))
    (hoh : config.Configuration.Handler = some oh)
    (hne : oh ≠ "") (hdiff : oh ≠ rh)
    (hprov : config.Configuration.Runtime ≠ "provider")
    (hsup : (rc.lookup config.Configuration.Runtime).isSome)
    (hnl : resolveNewLayers la disco_layers = Except.ok [nl])
    (hnlv : pyStartswith nl pfx = true)
    (hlayers : ∀ l ∈ config.Configuration.Layers, pyStartswith l.Arn pfx = false)
    (hjava : pyStartswith config.Configuration.Runtime "java" = true →
      pyTruthy (dictGet config.Configuration.Variables "NEW_RELIC_LAMBDA_HANDLER") = false) :
    ∃ kw kw2,
      (addNewRelic rc pfx disco_layers config fn la acct jt au).1 = Except.ok kw ∧
      (removeNewRelic rc pfx (configOfPatch config.Configuration.Runtime kw) fn la).1 =
        Except.ok kw2 ∧
      kw2.Handler = some oh ∧
      kw2.Layers = config.Configuration.Layers := by
  obtain ⟨hv, hlk⟩ := Option.isSome_iff_exists.mp hsup
  have hguard2 : pyEqHandler (some oh) (some (HandlerVal.str rh)) = false := by
    simp [pyEqHandler, hdiff]
  have hvalid : is_valid_handler rc config.Configuration.Runtime rh = true :=
    valid_of_resolve rc config.Configuration.Runtime jt rh hrh
  have hfil := filter_nonvendor_eq pfx config.Configuration.Layers hlayers
  have hto : pyTruthy (some oh) = true := by simp [pyTruthy, hne]
  have hloop : removeLayersLoop pfx 0
      (({ Arn := nl } : LayerRef) :: config.Configuration.Layers) =
      config.Configuration.Layers :=
    removeLayersLoop_cons_vendor pfx _ _ hnlv hlayers
  by_cases hj : pyStartswith config.Configuration.Runtime "java" = true
  · -- java family: the marker is written under the multi-entry key
    refine ⟨{ FunctionName := fn
              Handler := some (HandlerVal.str rh)
              Variables := dictSet (dictSet config.Configuration.Variables
                "NEW_RELIC_ACCOUNT_ID" acct) "NEW_RELIC_GENERIC_HANDLER" oh
              Layers := [nl] ++ config.Configuration.Layers.map (fun l => l.Arn) },
            { FunctionName := fn
              Handler := some oh
              Variables := dictDel (dictDel (dictDel
                (dictSet (dictSet config.Configuration.Variables
                  "NEW_RELIC_ACCOUNT_ID" acct) "NEW_RELIC_GENERIC_HANDLER" oh)
                "NEW_RELIC_LAMBDA_HANDLER") "NEW_RELIC_GENERIC_HANDLER")
                "NEW_RELIC_ACCOUNT_ID"
              Layers := config.Configuration.Layers }, ?_, ?_, rfl, rfl⟩
    · simp only [addNewRelic, hrh, hnl]
      simp [hacct, hprov, hlk, hoh, hj, pyStr, hfil, hguard2]
    · have hL : dictGet (dictSet (dictSet config.Configuration.Variables
          "NEW_RELIC_ACCOUNT_ID" acct) "NEW_RELIC_GENERIC_HANDLER" oh)
          "NEW_RELIC_LAMBDA_HANDLER" =
          dictGet config.Configuration.Variables "NEW_RELIC_LAMBDA_HANDLER" := by
        rw [dictGet_dictSet_ne _ _ _ _ (by decide), dictGet_dictSet_ne _ _ _ _ (by decide)]
      have hG : dictGet (dictSet (dictSet config.Configuration.Variables
          "NEW_RELIC_ACCOUNT_ID" acct) "NEW_RELIC_GENERIC_HANDLER" oh)
          "NEW_RELIC_GENERIC_HANDLER" = some oh := dictGet_dictSet_self _ _ _
      have hpyor : pyOr (dictGet (dictSet (dictSet config.Configuration.Variables
            "NEW_RELIC_ACCOUNT_ID" acct) "NEW_RELIC_GENERIC_HANDLER" oh)
            "NEW_RELIC_LAMBDA_HANDLER")
          (dictGet (dictSet (dictSet config.Configuration.Variables
            "NEW_RELIC_ACCOUNT_ID" acct) "NEW_RELIC_GENERIC_HANDLER" oh)
            "NEW_RELIC_GENERIC_HANDLER") = some oh := by
        unfold pyOr
        rw [hL, hG, hjava hj]
        simp
      simp only [removeNewRelic, configOfPatch]
      simp [hprov, hlk, hvalid, hpyor, hto, map_mk_arn_comp, hloop]
  · -- single-entry family: the marker is written under the single-entry key
    rw [Bool.not_eq_true] at hj
    refine ⟨{ FunctionName := fn
              Handler := some (HandlerVal.str rh)
              Variables := dictSet (dictSet config.Configuration.Variables
                "NEW_RELIC_ACCOUNT_ID" acct) "NEW_RELIC_LAMBDA_HANDLER" oh
              Layers := [nl] ++ config.Configuration.Layers.map (fun l => l.Arn) },
            { FunctionName := fn
              Handler := some oh
              Variables := dictDel (dictDel (dictDel
                (dictSet (dictSet config.Configuration.Variables
                  "NEW_RELIC_ACCOUNT_ID" acct) "NEW_RELIC_LAMBDA_HANDLER" oh)
                "NEW_RELIC_LAMBDA_HANDLER") "NEW_RELIC_GENERIC_HANDLER")
                "NEW_RELIC_ACCOUNT_ID"
              Layers := config.Configuration.Layers }, ?_, ?_, rfl, rfl⟩
    · simp only [addNewRelic, hrh, hnl]
      simp [hacct, hprov, hlk, hoh, hj, pyStr, hfil, hguard2]
    · have hL : dictGet (dictSet (dictSet config.Configuration.Variables
          "NEW_RELIC_ACCOUNT_ID" acct) "NEW_RELIC_LAMBDA_HANDLER" oh)
          "NEW_RELIC_LAMBDA_HANDLER" = some oh := dictGet_dictSet_self _ _ _
      have hpyor : pyOr (dictGet (dictSet (dictSet config.Configuration.Variables
            "NEW_RELIC_ACCOUNT_ID" acct) "NEW_RELIC_LAMBDA_HANDLER" oh)
            "NEW_RELIC_LAMBDA_HANDLER")
          (dictGet (dictSet (dictSet config.Configuration.Variables
            "NEW_RELIC_ACCOUNT_ID" acct) "NEW_RELIC_LAMBDA_HANDLER" oh)
            "NEW_RELIC_GENERIC_HANDLER") = some oh := by
        unfold pyOr
        rw [hL, hto]
        simp
      simp only [removeNewRelic, configOfPatch]
      simp [hprov, hlk, hvalid, hpyor, hto, map_mk_arn_comp, hloop]

/-- Witness for the amended C3 at a concrete input: a fresh python3.9 install
with an explicit vendor-prefixed layer ARN, followed by uninstall. -/
theorem c3_install_uninstall_roundtrip_witness :
    ∃ kw kw2,
      (addNewRelic RUNTIME_CONFIG "nr:us-east-1:" []
        ⟨⟨"python3.9", some "app.handler", [], []⟩⟩
        "fn" "nr:us-east-1:layer:14" "123" "" false).1 = Except.ok kw ∧
      (removeNewRelic RUNTIME_CONFIG "nr:us-east-1:"
        (configOfPatch "python3.9" kw) "fn" "nr:us-east-1:layer:14").1 =
        Except.ok kw2 ∧
      kw2.Handler = some "app.handler" ∧
      kw2.Layers = ([] : List LayerRef) :=
  c3_install_uninstall_roundtrip RUNTIME_CONFIG "nr:us-east-1:" []
    ⟨⟨"python3.9", some "app.handler", [], []⟩⟩
    "fn" "nr:us-east-1:layer:14" "123" "" false
    "app.handler" "newrelic_lambda_wrapper.handler" "nr:us-east-1:layer:14"
    (by decide) (by decide) (by decide) (by decide) (by decide) (by decide)
    (by decide) (by decide) (by decide) (by decide) (by decide)
